import Mathlib

/-!
Shallow embedding of the `anytimeofficial12-gif/allow` contest backend
(`backend/main.py`, `backend/main_sheets.py`) and proofs about its
storage-selection, fallback, validation and read paths.

External effects (Supabase / Google Sheets / PostgreSQL calls, the process
clock) are made explicit parameters: each clock read is a `PyDateTime`
argument, and each third-party call outcome is a `Bool` / `Except` argument.
Python string operations (`str.strip`, `str.lower`, `in`, `len`) are embedded
as executable list-of-characters functions.
-/

namespace Backend

/-- A clock reading, as produced by Python `datetime.now()`.  Python
datetimes always satisfy `year ≤ 9999`, `month ≤ 12`, `day ≤ 31`,
`hour ≤ 23`, `minute ≤ 59`, `second ≤ 59`, `microsecond ≤ 999999`, on which
range the formatting below agrees with `strftime`. -/
structure PyDateTime where
  year : Nat
  month : Nat
  day : Nat
  hour : Nat
  minute : Nat
  second : Nat
  micro : Nat
deriving Repr, DecidableEq

/-- The decimal digit character for `n % 10`. -/
def digitChar (n : Nat) : Char :=
  match n % 10 with
  | 0 => '0' | 1 => '1' | 2 => '2' | 3 => '3' | 4 => '4'
  | 5 => '5' | 6 => '6' | 7 => '7' | 8 => '8' | _ => '9'

/-- Fixed-width zero-padded decimal rendering, as `strftime` zero-pads
`%Y` to 4, `%m %d %H %M %S` to 2 and `%f` to 6 digits (exact for the
field ranges a Python `datetime` can hold). -/
def padDigits (w n : Nat) : String :=
  String.mk ((List.range w).map (fun i => digitChar (n / 10 ^ (w - 1 - i))))

/-- Python `len` on a string (number of characters). -/
def pyLen (s : String) : Nat := s.data.length

/-- Characters removed by Python `str.strip()` with no argument. -/
def isPySpace (c : Char) : Bool := (c == ' ') || (c == '\t') || (c == '\n') || (c == '\r')

/-- Python `str.strip()`: drop leading and trailing whitespace. -/
def pyStrip (s : String) : String :=
  String.mk (((s.data.dropWhile isPySpace).reverse.dropWhile isPySpace).reverse)

/-- Python `str.lower()` (ASCII case folding). -/
def pyLower (s : String) : String := String.mk (s.data.map Char.toLower)

/-- Python `c in s` for a one-character needle. -/
def pyContains (s : String) (c : Char) : Bool := s.data.contains c

/-- `s.all Char.isDigit`: every character of the string is a decimal digit. -/
def allDigits (s : String) : Bool := s.data.all Char.isDigit

/-- The `yyyyMMdd` digits of `strftime('%Y%m%d_%H%M%S%f')`. -/
def dateDigits (t : PyDateTime) : String :=
  padDigits 4 t.year ++ padDigits 2 t.month ++ padDigits 2 t.day

/-- The `HHmmss` digits of `strftime('%Y%m%d_%H%M%S%f')`. -/
def timeDigits (t : PyDateTime) : String :=
  padDigits 2 t.hour ++ padDigits 2 t.minute ++ padDigits 2 t.second

/-- The `ffffff` microsecond digits of `strftime('%Y%m%d_%H%M%S%f')`. -/
def microDigits (t : PyDateTime) : String := padDigits 6 t.micro

/-- `datetime.now().strftime('%Y%m%d_%H%M%S%f')`. -/
def strftimeId (t : PyDateTime) : String :=
  dateDigits t ++ "_" ++ timeDigits t ++ microDigits t

/-- The server-generated submission id
`f"sub_{datetime.now().strftime('%Y%m%d_%H%M%S%f')}"`. -/
def mkSubmissionId (t : PyDateTime) : String := "sub_" ++ strftimeId t

/-- `datetime.now().isoformat()` (microseconds omitted when zero, as in
Python). -/
def isoformat (t : PyDateTime) : String :=
  padDigits 4 t.year ++ "-" ++ padDigits 2 t.month ++ "-" ++ padDigits 2 t.day
    ++ "T" ++ padDigits 2 t.hour ++ ":" ++ padDigits 2 t.minute ++ ":" ++ padDigits 2 t.second
    ++ (if t.micro = 0 then "" else "." ++ padDigits 6 t.micro)

/-- A stored submission record (the dict appended to `in_memory_storage`,
or the row/record sent to a persistent backend). -/
structure Submission where
  id : String
  name : String
  email : String
  answer : String
  timestamp : String
  storage_method : String
deriving Repr, DecidableEq

/-- A validated `ContestSubmission` (the pydantic model after its
validators ran). -/
structure ContestSubmission where
  name : String
  email : String
  answer : String
  timestamp : Option String
deriving Repr, DecidableEq

/-- The raw key-value payload handed to `ContestSubmission(**payload)`:
each field is present (`some`) or absent (`none`). -/
structure Payload where
  name : Option String
  email : Option String
  answer : Option String
  timestamp : Option String
deriving Repr, DecidableEq

/-- One entry of the pydantic `ValidationError.errors()` list as
re-packaged by the `/submit` handler: `{loc, msg, type}`. -/
structure FieldError where
  loc : String
  msg : String
  etype : String
deriving Repr, DecidableEq

/-- `validate_name`: fails when the value is falsy or its strip is shorter
than 2 characters; otherwise returns the stripped value. -/
def validate_name (v : String) : Except String String :=
  if v = "" ∨ pyLen (pyStrip v) < 2 then
    Except.error ("Name must be at least 2 characters long")
  else
    Except.ok (pyStrip v)

/-- `validate_email`: fails when the value is falsy or has no `@`;
otherwise returns the stripped, lowercased value. -/
def validate_email (v : String) : Except String String :=
  if v = "" ∨ pyContains v '@' = false then
    Except.error ("Valid email address required")
  else
    Except.ok (pyLower (pyStrip v))

/-- `validate_answer`: fails when the value is falsy or its strip is
shorter than 5 characters; otherwise returns the stripped value. -/
def validate_answer (v : String) : Except String String :=
  if v = "" ∨ pyLen (pyStrip v) < 5 then
    Except.error ("Answer must be at least 5 characters long")
  else
    Except.ok (pyStrip v)

/-- Pydantic treatment of one required field: a missing field yields a
`field required` error, a present field runs its validator. -/
def fieldResult (fieldName : String) (v : Option String)
    (f : String → Except String String) : Except FieldError String :=
  match v with
  | none => Except.error { loc := fieldName, msg := "field required", etype := "value_error.missing" }
  | some s =>
    match f s with
    | Except.error m => Except.error { loc := fieldName, msg := m, etype := "value_error" }
    | Except.ok r => Except.ok r

/-- The error contribution of one field result. -/
def errSide (r : Except FieldError String) : List FieldError :=
  match r with
  | Except.error e => [e]
  | Except.ok _ => []

/-- `ContestSubmission(**payload)`: validate all fields (in declaration
order `name`, `email`, `answer`), collecting one error per failing field;
`timestamp` is optional and accepted verbatim. -/
def mkContestSubmission (p : Payload) : Except (List FieldError) ContestSubmission :=
  let rn := fieldResult ("name") p.name validate_name
  let re := fieldResult ("email") p.email validate_email
  let ra := fieldResult ("answer") p.answer validate_answer
  match rn, re, ra with
  | Except.ok n, Except.ok e, Except.ok a =>
      Except.ok { name := n, email := e, answer := a, timestamp := p.timestamp }
  | _, _, _ => Except.error (errSide rn ++ errSide re ++ errSide ra)

/-- The storage backend selected at startup and held in
`app.state.storage_backend`. -/
inductive StorageBackend where
  | supabase
  | sheets
  | postgres
  | memory
deriving Repr, DecidableEq

/-- The string name of a backend, as stored in `app.state.storage_backend`. -/
def storageName : StorageBackend → String
  | StorageBackend.supabase => "supabase"
  | StorageBackend.sheets => "sheets"
  | StorageBackend.postgres => "postgres"
  | StorageBackend.memory => "memory"

/-- Outcomes of the external effects an insert can perform: whether each
client object is initialized and whether the third-party call succeeds. -/
structure StorageCtx where
  supabaseClient : Bool
  supabaseHasData : Bool
  sheetsCreds : Bool
  sheetsHttpOk : Bool
  postgresPool : Bool
  postgresExecOk : Bool
deriving Repr, DecidableEq

/-- The record dict built by `insert_submission_memory`. -/
def memRecord (now : PyDateTime) (d : ContestSubmission) : Submission :=
  { id := mkSubmissionId now
    name := d.name
    email := d.email
    answer := d.answer
    timestamp := d.timestamp.getD (isoformat now)
    storage_method := "memory" }

/-- `insert_submission_memory`: generate the id, build the record dict and
append it to `in_memory_storage`; returns the id (and the new store). -/
def insert_submission_memory (now : PyDateTime) (d : ContestSubmission)
    (store : List Submission) : String × List Submission :=
  (mkSubmissionId now, store ++ [memRecord now d])

/-- `insert_submission_supabase`: raises when the client is missing or the
insert returned no data, otherwise returns the freshly generated id. -/
def insert_submission_supabase (client hasData : Bool) (now : PyDateTime)
    (_d : ContestSubmission) : Except String String :=
  if !client then Except.error ("Supabase not initialized")
  else if !hasData then Except.error ("No data returned from Supabase insert")
  else Except.ok (mkSubmissionId now)

/-- `insert_submission_sheets`: raises when credentials are missing or the
append request fails (`raise_for_status`), otherwise returns the id. -/
def insert_submission_sheets (credsOk httpOk : Bool) (now : PyDateTime)
    (_d : ContestSubmission) : Except String String :=
  if !credsOk then Except.error ("Google Sheets not configured")
  else if !httpOk then Except.error ("HTTP error from Sheets append")
  else Except.ok (mkSubmissionId now)

/-- `insert_submission_postgres`: raises when the pool is missing or the
SQL insert fails, otherwise returns the id. -/
def insert_submission_postgres (pool execOk : Bool) (now : PyDateTime)
    (_d : ContestSubmission) : Except String String :=
  if !pool then Except.error ("PostgreSQL not initialized")
  else if !execOk then Except.error ("SQL insert failed")
  else Except.ok (mkSubmissionId now)

/-- Dispatch of `insert_submission` to the selected non-memory adapter. -/
def nonMemoryInsert (ctx : StorageCtx) (b : StorageBackend) (now : PyDateTime)
    (d : ContestSubmission) : Except String String :=
  match b with
  | StorageBackend.supabase => insert_submission_supabase ctx.supabaseClient ctx.supabaseHasData now d
  | StorageBackend.sheets => insert_submission_sheets ctx.sheetsCreds ctx.sheetsHttpOk now d
  | StorageBackend.postgres => insert_submission_postgres ctx.postgresPool ctx.postgresExecOk now d
  | StorageBackend.memory => Except.ok (mkSubmissionId now)

/-- `insert_submission`: try the active backend; on any exception fall back
to `insert_submission_memory` (a single attempt, no retry against the
original backend).  `tB` is the clock read inside the backend adapter,
`tM` the clock read inside the memory adapter. -/
def insert_submission (ctx : StorageCtx) (current_storage : StorageBackend)
    (tB tM : PyDateTime) (d : ContestSubmission) (store : List Submission) :
    String × List Submission :=
  match current_storage with
  | StorageBackend.memory => insert_submission_memory tM d store
  | b =>
    match nonMemoryInsert ctx b tB d with
    | Except.ok id => (id, store)
    | Except.error _ => insert_submission_memory tM d store

/-- Decidable equality for call outcomes. -/
instance {ε α : Type} [DecidableEq ε] [DecidableEq α] : DecidableEq (Except ε α) := fun a b =>
  match a, b with
  | Except.error x, Except.error y =>
    if h : x = y then Decidable.isTrue (by rw [h])
    else Decidable.isFalse (by intro hh; cases hh; exact h rfl)
  | Except.ok x, Except.ok y =>
    if h : x = y then Decidable.isTrue (by rw [h])
    else Decidable.isFalse (by intro hh; cases hh; exact h rfl)
  | Except.error _, Except.ok _ => Decidable.isFalse (by intro hh; cases hh)
  | Except.ok _, Except.error _ => Decidable.isFalse (by intro hh; cases hh)

/-- Outcomes of the external reads `count_submissions` / `list_submissions`
can perform (client presence and third-party query results). -/
structure ReadCtx where
  supabaseClient : Bool
  postgresPool : Bool
  supabaseRows : Except String (List Submission)
  postgresRows : Except String (List Submission)
  supabaseCount : Except String (Option Nat)
  postgresCount : Except String (Option Nat)
deriving Repr, DecidableEq

/-- The Python slice `in_memory_storage[-limit:] if in_memory_storage else []`:
the last `limit` records in insertion order (`[-0:]` is the whole list). -/
def memory_slice (store : List Submission) (limit : Nat) : List Submission :=
  if limit = 0 then store else store.drop (store.length - limit)

/-- `count_submissions`: count from the active storage; on any failure (or
when the client object is missing) return `len(in_memory_storage)`. -/
def count_submissions (rctx : ReadCtx) (current_storage : StorageBackend)
    (store : List Submission) : Nat :=
  match current_storage with
  | StorageBackend.supabase =>
    if rctx.supabaseClient then
      match rctx.supabaseCount with
      | Except.ok c => c.getD 0
      | Except.error _ => store.length
    else store.length
  | StorageBackend.postgres =>
    if rctx.postgresPool then
      match rctx.postgresCount with
      | Except.ok c => c.getD 0
      | Except.error _ => store.length
    else store.length
  | _ => store.length

/-- `list_submissions`: list from the active storage (the external query
orders and limits its own result); the memory and soft-failure paths
return the `[-limit:]` slice of `in_memory_storage`. -/
def list_submissions (rctx : ReadCtx) (current_storage : StorageBackend)
    (store : List Submission) (limit : Nat) : List Submission :=
  match current_storage with
  | StorageBackend.supabase =>
    if rctx.supabaseClient then
      match rctx.supabaseRows with
      | Except.ok rows => rows.map (fun r => { r with storage_method := "supabase" })
      | Except.error _ => memory_slice store limit
    else memory_slice store limit
  | StorageBackend.postgres =>
    if rctx.postgresPool then
      match rctx.postgresRows with
      | Except.ok rows => rows.map (fun r => { r with storage_method := "postgres" })
      | Except.error _ => memory_slice store limit
    else memory_slice store limit
  | _ => memory_slice store limit

/-- The value `await request.json()` parsed to, after the three-way body
sniffing; only the shapes relevant here are distinguished. -/
inductive ParsedJson where
  | obj (p : Payload)
  | arr
  | str (s : String)
  | num (n : Int)
  | null
deriving Repr, DecidableEq

/-- Whether the parsed body is a mapping (`isinstance(payload, dict)`). -/
def ParsedJson.isObj : ParsedJson → Bool
  | ParsedJson.obj _ => true
  | _ => false

/-- The empty payload `{}`. -/
def emptyPayload : Payload :=
  { name := none, email := none, answer := none, timestamp := none }

/-- `if not isinstance(payload, dict): payload = {}`. -/
def coerce_payload : ParsedJson → Payload
  | ParsedJson.obj p => p
  | _ => emptyPayload

/-- The `/submit` response: HTTP 200 success body, the 422 raised on
validation failure, or the 500 raised on an unexpected error. -/
inductive SubmitResponse where
  | success (message : String) (submission_id : String)
  | validation_error (detail : List FieldError)
  | server_error (detail : String)
deriving Repr, DecidableEq

/-- The HTTP status code of a `/submit` response. -/
def SubmitResponse.status : SubmitResponse → Nat
  | SubmitResponse.success _ _ => 200
  | SubmitResponse.validation_error _ => 422
  | SubmitResponse.server_error _ => 500

/-- The success message
`f"Submission recorded successfully using {current_storage}!"` built from
`app.state.storage_backend`. -/
def submitMessage (b : StorageBackend) : String :=
  "Submission recorded successfully using " ++ storageName b ++ "!"

/-- `if not submission.timestamp: submission.timestamp = datetime.now().isoformat()`
(a missing or empty timestamp is falsy). -/
def fill_timestamp (now : PyDateTime) (s : ContestSubmission) : ContestSubmission :=
  if s.timestamp.getD ("") = "" then { s with timestamp := some (isoformat now) } else s

/-- The `POST /submit` handler: coerce the body to a mapping, validate it,
fill the timestamp, insert through the active backend (with fallback) and
answer success naming `current_storage`.  `tV` is the clock read that fills
the timestamp, `tB`/`tM` the reads inside the backend/memory adapters. -/
def submit_contest_entry (ctx : StorageCtx) (current_storage : StorageBackend)
    (tV tB tM : PyDateTime) (body : ParsedJson) (store : List Submission) :
    SubmitResponse × List Submission :=
  let payload := coerce_payload body
  match mkContestSubmission payload with
  | Except.error errs => (SubmitResponse.validation_error errs, store)
  | Except.ok sub =>
    let sub2 := fill_timestamp tV sub
    let res := insert_submission ctx current_storage tB tM sub2 store
    (SubmitResponse.success (submitMessage current_storage) res.1, res.2)

/-- The `GET /submissions/count` response body (the timestamp field is
omitted from the model). -/
structure CountResponse where
  total_submissions : Nat
  storage_method : String
deriving Repr, DecidableEq

/-- The `GET /submissions/count` handler. -/
def get_submission_count (rctx : ReadCtx) (current_storage : StorageBackend)
    (store : List Submission) : CountResponse :=
  { total_submissions := count_submissions rctx current_storage store
    storage_method := storageName current_storage }

/-- The `GET /submissions/backup` response body. -/
structure BackupResponse where
  total_submissions : Nat
  submissions : List Submission
  storage_method : String
deriving Repr, DecidableEq

/-- The `GET /submissions/backup` handler: `list_submissions()` with the
default `limit = 1000`. -/
def get_backup_submissions (rctx : ReadCtx) (current_storage : StorageBackend)
    (store : List Submission) : BackupResponse :=
  let subs := list_submissions rctx current_storage store 1000
  { total_submissions := subs.length
    submissions := subs
    storage_method := storageName current_storage }

/-- The configuration and construction outcomes `init_storage` consults:
raw environment values (an empty string is falsy in Python), library
availability flags, and whether each client construction succeeds. -/
structure EnvConfig where
  storage_backend : Option String
  supabase_available : Bool
  supabase_url : Option String
  supabase_key : Option String
  supabase_create_ok : Bool
  sheets_api_key : Option String
  sheet_id : Option String
  postgres_available : Bool
  database_url : Option String
  pool_create_ok : Bool
deriving Repr, DecidableEq

/-- Python truthiness of an optional environment string. -/
def truthy (o : Option String) : Bool :=
  match o with
  | none => false
  | some s => !(s == "")

/-- `init_storage`: the startup selection.
`STORAGE_BACKEND = os.getenv('STORAGE_BACKEND', 'supabase').lower()`; then
the supabase, sheets and postgres branches are tried in order (each gated
on the configured name, availability and credentials, and on the client
construction not raising), and otherwise memory is selected. -/
def init_storage (env : EnvConfig) : String :=
  let sb := pyLower (env.storage_backend.getD ("supabase"))
  if (sb == "supabase") && env.supabase_available && truthy env.supabase_url
      && truthy env.supabase_key && env.supabase_create_ok then "supabase"
  else if (sb == "sheets") && truthy env.sheets_api_key && truthy env.sheet_id then "sheets"
  else if (sb == "postgres") && env.postgres_available && truthy env.database_url
      && env.pool_create_ok then "postgres"
  else "memory"

/-- One request against the public contract, with the outcomes of its
external effects. -/
inductive ApiOp where
  | submit (ctx : StorageCtx) (tV tB tM : PyDateTime) (body : ParsedJson)
  | count (rctx : ReadCtx)
  | backup (rctx : ReadCtx)

/-- The effect of one request on the in-memory store: `/submit` may append
through `insert_submission`; the read handlers only call
`count_submissions` / `list_submissions`, which read `in_memory_storage`
and never mutate it. -/
def apply_op (current_storage : StorageBackend) (store : List Submission) :
    ApiOp → List Submission
  | ApiOp.submit ctx tV tB tM body => (submit_contest_entry ctx current_storage tV tB tM body store).2
  | ApiOp.count _ => store
  | ApiOp.backup _ => store

/-- Run a sequence of requests against the store. -/
def run_ops (current_storage : StorageBackend) (store : List Submission) :
    List ApiOp → List Submission
  | [] => store
  | op :: rest => run_ops current_storage (apply_op current_storage store op) rest

/-- Run a sequence of `insert_submission` calls (each with its two clock
reads and its validated data) against the store. -/
def run_inserts (ctx : StorageCtx) (current_storage : StorageBackend) :
    List (PyDateTime × PyDateTime × ContestSubmission) → List Submission → List Submission
  | [], store => store
  | (tB, tM, d) :: rest, store =>
    run_inserts ctx current_storage rest (insert_submission ctx current_storage tB tM d store).2

end Backend

namespace Sheets

open Backend

/-- One row of the spreadsheet, as sent to the Sheets `values:append`
endpoint by `main_sheets.py`: `[submission_id, name, email, answer, timestamp]`. -/
structure SheetRow where
  id : String
  name : String
  email : String
  answer : String
  timestamp : String
deriving Repr, DecidableEq

/-- `main_sheets.append_to_google_sheets`: when credentials are present it
generates a submission id at clock read `now`, posts the row, and returns
`True` exactly when the request succeeded (`False` on missing credentials
or any exception).  The row actually persisted by the spreadsheet is
returned alongside for reasoning; the Python function itself returns only
the boolean and discards the id it generated. -/
def append_to_google_sheets (credsOk httpOk : Bool) (now : PyDateTime)
    (d : ContestSubmission) : Bool × Option SheetRow :=
  if !credsOk then (false, none)
  else if httpOk then
    (true, some { id := mkSubmissionId now, name := d.name, email := d.email,
                  answer := d.answer, timestamp := d.timestamp.getD (isoformat now) })
  else (false, none)

/-- `main_sheets.store_in_memory`: identical to the in-memory insert of the
multi-backend app. -/
def store_in_memory (now : PyDateTime) (d : ContestSubmission)
    (store : List Submission) : String × List Submission :=
  (mkSubmissionId now, store ++ [memRecord now d])

/-- `main_sheets.insert_submission`: try the spreadsheet append first; on
success return a freshly generated id (a second clock read `tReturn`), on
failure fall back to `store_in_memory`.  The third component is the row the
spreadsheet persisted, if any. -/
def insert_submission (credsOk httpOk : Bool) (tAppend tReturn : PyDateTime)
    (d : ContestSubmission) (store : List Submission) :
    String × List Submission × Option SheetRow :=
  match append_to_google_sheets credsOk httpOk tAppend d with
  | (true, row) => (mkSubmissionId tReturn, store, row)
  | (false, _) =>
    let res := store_in_memory tReturn d store
    (res.1, res.2, none)

end Sheets

namespace Backend

/-- Every character produced by `digitChar` is a decimal digit. -/
theorem digitChar_isDigit (n : Nat) : (digitChar n).isDigit = true := by
  have h : n % 10 < 10 := Nat.mod_lt _ (by omega)
  unfold digitChar
  revert h
  generalize n % 10 = m
  intro h
  interval_cases m <;> rfl

/-- `padDigits` always renders exactly `w` characters. -/
theorem padDigits_length (w n : Nat) : pyLen (padDigits w n) = w := by
  simp [padDigits, pyLen]

/-- `padDigits` renders only decimal digits. -/
theorem allDigits_padDigits (w n : Nat) : allDigits (padDigits w n) = true := by
  simp only [allDigits, padDigits, List.all_eq_true]
  intro c hc
  simp only [List.mem_map, List.mem_range] at hc
  obtain ⟨i, _, rfl⟩ := hc
  exact digitChar_isDigit _

/-- Python `len` distributes over string append. -/
theorem pyLen_append (s t : String) : pyLen (s ++ t) = pyLen s + pyLen t := by
  simp [pyLen, String.data_append]

/-- `allDigits` distributes over string append. -/
theorem allDigits_append (s t : String) :
    allDigits (s ++ t) = (allDigits s && allDigits t) := by
  simp [allDigits, String.data_append, List.all_append]

/-- The date part of the id has 8 digit characters. -/
theorem dateDigits_spec (t : PyDateTime) :
    pyLen (dateDigits t) = 8 ∧ allDigits (dateDigits t) = true := by
  constructor
  · simp [dateDigits, pyLen_append, padDigits_length]
  · simp [dateDigits, allDigits_append, allDigits_padDigits]

/-- The time-of-day part of the id has 6 digit characters. -/
theorem timeDigits_spec (t : PyDateTime) :
    pyLen (timeDigits t) = 6 ∧ allDigits (timeDigits t) = true := by
  constructor
  · simp [timeDigits, pyLen_append, padDigits_length]
  · simp [timeDigits, allDigits_append, allDigits_padDigits]

/-- The microsecond part of the id has 6 digit characters. -/
theorem microDigits_spec (t : PyDateTime) :
    pyLen (microDigits t) = 6 ∧ allDigits (microDigits t) = true := by
  exact ⟨padDigits_length 6 t.micro, allDigits_padDigits 6 t.micro⟩

/-- Shape of every generated submission id:
`sub_` then the 8 `yyyyMMdd` digits, an underscore, the 6 `HHmmss` digits
and the 6 microsecond digits. -/
theorem mkSubmissionId_shape (t : PyDateTime) :
    mkSubmissionId t = "sub_" ++ dateDigits t ++ "_" ++ timeDigits t ++ microDigits t := by
  simp [mkSubmissionId, strftimeId, String.append_assoc]

/-- No generated submission id is the empty string. -/
theorem mkSubmissionId_ne_empty (t : PyDateTime) : mkSubmissionId t ≠ "" := by
  intro h
  have h2 : pyLen (mkSubmissionId t) = 0 := by rw [h]; rfl
  rw [mkSubmissionId_shape] at h2
  simp only [pyLen_append, padDigits_length, (dateDigits_spec t).1, (timeDigits_spec t).1,
    (microDigits_spec t).1] at h2
  omega

/-- A record appended at the end of the store survives the `[-limit:]`
slice whenever `limit ≥ 1`. -/
theorem mem_memory_slice_append (store : List Submission) (r : Submission)
    {limit : Nat} (h : 1 ≤ limit) : r ∈ memory_slice (store ++ [r]) limit := by
  have hne : ¬ limit = 0 := by omega
  unfold memory_slice
  rw [if_neg hne, List.drop_append_eq_append_drop]
  have h1 : (store ++ [r]).length - limit - store.length = 0 := by
    simp only [List.length_append, List.length_singleton]
    omega
  rw [h1]
  simp

/-- A payload whose three required fields satisfy the field rules
validates to the stripped/lowercased submission. -/
theorem mkContestSubmission_eq_ok (p : Payload) (n e a : String)
    (hn : p.name = some n) (he : p.email = some e) (ha : p.answer = some a)
    (h1 : 2 ≤ pyLen (pyStrip n)) (h2 : pyContains e '@' = true)
    (h3 : 5 ≤ pyLen (pyStrip a)) :
    mkContestSubmission p = Except.ok
      { name := pyStrip n, email := pyLower (pyStrip e), answer := pyStrip a,
        timestamp := p.timestamp } := by
  have hn2 : ¬ (n = "" ∨ pyLen (pyStrip n) < 2) := by
    rintro (rfl | hlt)
    · have h0 : pyLen (pyStrip ("")) = 0 := rfl
      omega
    · omega
  have he2 : ¬ (e = "" ∨ pyContains e '@' = false) := by
    rintro (rfl | hf)
    · exact absurd h2 (by decide)
    · rw [hf] at h2
      cases h2
  have ha2 : ¬ (a = "" ∨ pyLen (pyStrip a) < 5) := by
    rintro (rfl | hlt)
    · have h0 : pyLen (pyStrip ("")) = 0 := rfl
      omega
    · omega
  simp [mkContestSubmission, fieldResult, hn, he, ha,
    validate_name, validate_email, validate_answer, hn2, he2, ha2]

/-- An environment with `STORAGE_BACKEND` unset and every credential
present (supabase, sheets and postgres all configured and constructible). -/
def envUnsetFull : EnvConfig :=
  { storage_backend := none
    supabase_available := true
    supabase_url := some "https://example.supabase.co"
    supabase_key := some "anon-key"
    supabase_create_ok := true
    sheets_api_key := some "sheets-key"
    sheet_id := some "sheet-id"
    postgres_available := true
    database_url := some "postgres://user@host/db"
    pool_create_ok := true }

/-- An environment with `STORAGE_BACKEND` unset and no supabase URL. -/
def envUnsetNoUrl : EnvConfig :=
  { storage_backend := none
    supabase_available := true
    supabase_url := none
    supabase_key := some "anon-key"
    supabase_create_ok := true
    sheets_api_key := some "sheets-key"
    sheet_id := some "sheet-id"
    postgres_available := true
    database_url := some "postgres://user@host/db"
    pool_create_ok := true }

/-- Claim C3 (counterexample): with `STORAGE_BACKEND` unset and
supabase/sheets/postgres credentials all present, `init_storage` selects
`supabase`, not `memory` — the unset default is `'supabase'`, so the
claimed "unset selects memory regardless of credentials" is false. -/
theorem init_storage_unset_selects_supabase :
    init_storage envUnsetFull = "supabase" ∧ init_storage envUnsetFull ≠ "memory" := by
  decide

/-- Claim C3 (amended): when `STORAGE_BACKEND` is unset the configured
name defaults to `'supabase'`, so `init_storage` selects supabase exactly
when the supabase library, URL, key and client construction are all
available, and otherwise selects memory — never sheets or postgres,
whatever their credentials. -/
theorem init_storage_unset_default (env : EnvConfig) (h : env.storage_backend = none) :
    init_storage env =
      (if env.supabase_available && truthy env.supabase_url && truthy env.supabase_key
          && env.supabase_create_ok then "supabase" else "memory") := by
  unfold init_storage
  rw [h]
  have e1 : pyLower ((none : Option String).getD ("supabase")) = "supabase" := rfl
  rw [e1]
  have e2 : (("supabase" : String) == "supabase") = true := rfl
  have e3 : (("supabase" : String) == "sheets") = false := rfl
  have e4 : (("supabase" : String) == "postgres") = false := rfl
  simp only [e2, e3, e4, Bool.true_and, Bool.false_and]
  cases hb : (env.supabase_available && truthy env.supabase_url && truthy env.supabase_key
      && env.supabase_create_ok) <;> simp [hb]

/-- Claim C3 witness: the amended theorem applied to a concrete unset
environment lacking the supabase URL, where memory is selected. -/
theorem init_storage_unset_default_witness :
    envUnsetNoUrl.storage_backend = none ∧
    init_storage envUnsetNoUrl =
      (if envUnsetNoUrl.supabase_available && truthy envUnsetNoUrl.supabase_url
          && truthy envUnsetNoUrl.supabase_key && envUnsetNoUrl.supabase_create_ok
        then "supabase" else "memory") :=
  ⟨rfl, init_storage_unset_default envUnsetNoUrl rfl⟩

/-- With the memory backend, every `insert_submission` appends exactly one
record, so `run_inserts` grows the store by the number of inserts. -/
theorem run_inserts_memory_length (ctx : StorageCtx)
    (l : List (PyDateTime × PyDateTime × ContestSubmission)) (store : List Submission) :
    (run_inserts ctx StorageBackend.memory l store).length = store.length + l.length := by
  induction l generalizing store with
  | nil => simp [run_inserts]
  | cons hd tl ih =>
    obtain ⟨tB, tM, d⟩ := hd
    rw [run_inserts]
    simp only [insert_submission, insert_submission_memory]
    rw [ih]
    simp
    omega

/-- Claim C8: starting from an empty in-memory store with the memory
backend selected, after `N` inserts through `insert_submission` both
`count_submissions` and the `GET /submissions/count` handler report
exactly `N`. -/
theorem count_returns_number_of_inserts (ctx : StorageCtx) (rctx : ReadCtx)
    (l : List (PyDateTime × PyDateTime × ContestSubmission)) :
    count_submissions rctx StorageBackend.memory (run_inserts ctx StorageBackend.memory l []) = l.length
    ∧ (get_submission_count rctx StorageBackend.memory
        (run_inserts ctx StorageBackend.memory l [])).total_submissions = l.length := by
  have h := run_inserts_memory_length ctx l []
  simp only [List.length_nil, Nat.zero_add] at h
  exact ⟨by simp [count_submissions, h], by simp [get_submission_count, count_submissions, h]⟩

/-- Every `insert_submission` call either leaves the in-memory store
unchanged (the record went to the external backend) or appends exactly one
record at its end. -/
theorem insert_submission_snd_append (ctx : StorageCtx) (cs : StorageBackend)
    (tB tM : PyDateTime) (d : ContestSubmission) (store : List Submission) :
    ∃ tail, tail.length ≤ 1 ∧ (insert_submission ctx cs tB tM d store).2 = store ++ tail := by
  cases cs
  case memory => exact ⟨[memRecord tM d], by simp, rfl⟩
  case supabase =>
    cases h : nonMemoryInsert ctx StorageBackend.supabase tB d with
    | ok id => exact ⟨[], by simp, by simp [insert_submission, h]⟩
    | error e =>
      exact ⟨[memRecord tM d], by simp, by simp [insert_submission, insert_submission_memory, h]⟩
  case sheets =>
    cases h : nonMemoryInsert ctx StorageBackend.sheets tB d with
    | ok id => exact ⟨[], by simp, by simp [insert_submission, h]⟩
    | error e =>
      exact ⟨[memRecord tM d], by simp, by simp [insert_submission, insert_submission_memory, h]⟩
  case postgres =>
    cases h : nonMemoryInsert ctx StorageBackend.postgres tB d with
    | ok id => exact ⟨[], by simp, by simp [insert_submission, h]⟩
    | error e =>
      exact ⟨[memRecord tM d], by simp, by simp [insert_submission, insert_submission_memory, h]⟩

/-- Claim C9: the public contract never updates or deletes:
`insert_submission_memory` appends exactly one record at the end of the
in-memory sequence leaving existing records unchanged, and across every
sequence of requests (submits, counts, backups — the read handlers only
read the store) the store only ever grows by appending at the end. -/
theorem store_append_only :
    (∀ (t : PyDateTime) (d : ContestSubmission) (store : List Submission),
        insert_submission_memory t d store = (mkSubmissionId t, store ++ [memRecord t d]))
    ∧ (∀ (cs : StorageBackend) (store : List Submission) (ops : List ApiOp),
        ∃ tail, run_ops cs store ops = store ++ tail) := by
  constructor
  · intro t d store
    rfl
  · intro cs store ops
    induction ops generalizing store with
    | nil => exact ⟨[], by simp [run_ops]⟩
    | cons op rest ih =>
      have hop : ∃ tail1, apply_op cs store op = store ++ tail1 := by
        cases op with
        | submit ctx tV tB tM body =>
          simp only [apply_op, submit_contest_entry]
          cases hv : mkContestSubmission (coerce_payload body) with
          | error errs => exact ⟨[], by simp⟩
          | ok sub =>
            obtain ⟨tail, _, htail⟩ :=
              insert_submission_snd_append ctx cs tB tM (fill_timestamp tV sub) store
            exact ⟨tail, by simp [htail]⟩
        | count rctx => exact ⟨[], by simp [apply_op]⟩
        | backup rctx => exact ⟨[], by simp [apply_op]⟩
      obtain ⟨t1, h1⟩ := hop
      obtain ⟨t2, h2⟩ := ih (store ++ t1)
      refine ⟨t1 ++ t2, ?_⟩
      rw [run_ops, h1, h2, List.append_assoc]

/-- A well-formed submission payload (all three rules satisfied). -/
def validPayload : Payload :=
  { name := some "Al", email := some "a@b.com", answer := some "hello world",
    timestamp := none }

/-- The validated form of `validPayload`. -/
def validSub : ContestSubmission :=
  { name := "Al", email := "a@b.com", answer := "hello world", timestamp := none }

/-- Insert-effect outcomes where the supabase insert returns no data (the
forced-failure scenario) while everything else would succeed. -/
def ctxSupabaseFail : StorageCtx :=
  { supabaseClient := true, supabaseHasData := false, sheetsCreds := true,
    sheetsHttpOk := true, postgresPool := true, postgresExecOk := true }

/-- Read-effect outcomes with no external clients initialized. -/
def rctx0 : ReadCtx :=
  { supabaseClient := false, postgresPool := false,
    supabaseRows := Except.error ("no client"), postgresRows := Except.error ("no client"),
    supabaseCount := Except.error ("no client"), postgresCount := Except.error ("no client") }

/-- Three consecutive clock reads of one request. -/
def tClock0 : PyDateTime := ⟨2024, 5, 1, 12, 0, 0, 100⟩

/-- Clock read inside the backend adapter. -/
def tClock1 : PyDateTime := ⟨2024, 5, 1, 12, 0, 0, 200⟩

/-- Clock read inside the fallback memory adapter. -/
def tClock2 : PyDateTime := ⟨2024, 5, 1, 12, 0, 0, 300⟩

/-- Claim C1: for every valid submission, when the selected non-memory
backend's insert raises, `insert_submission` performs exactly the
in-memory insert (one fallback attempt; the original backend is not
consulted again), the `POST /submit` handler still answers with the
HTTP 200 success response carrying the in-memory adapter's id, and the
appended record is retrievable through the in-memory listing path. -/
theorem insert_failure_falls_back_to_memory
    (ctx : StorageCtx) (rctx : ReadCtx) (cs : StorageBackend) (tV tB tM : PyDateTime)
    (p : Payload) (sub : ContestSubmission) (store : List Submission) (msg : String)
    (hcs : cs ≠ StorageBackend.memory)
    (hval : mkContestSubmission p = Except.ok sub)
    (hfail : nonMemoryInsert ctx cs tB (fill_timestamp tV sub) = Except.error msg) :
    submit_contest_entry ctx cs tV tB tM (ParsedJson.obj p) store
      = (SubmitResponse.success (submitMessage cs) (mkSubmissionId tM),
         store ++ [memRecord tM (fill_timestamp tV sub)])
    ∧ insert_submission ctx cs tB tM (fill_timestamp tV sub) store
      = insert_submission_memory tM (fill_timestamp tV sub) store
    ∧ (SubmitResponse.success (submitMessage cs) (mkSubmissionId tM)).status = 200
    ∧ memRecord tM (fill_timestamp tV sub)
        ∈ list_submissions rctx StorageBackend.memory
            (store ++ [memRecord tM (fill_timestamp tV sub)]) 1000 := by
  have hins : insert_submission ctx cs tB tM (fill_timestamp tV sub) store
      = insert_submission_memory tM (fill_timestamp tV sub) store := by
    cases cs
    case memory => exact absurd rfl hcs
    all_goals simp [insert_submission, hfail]
  have hmem : memRecord tM (fill_timestamp tV sub)
      ∈ list_submissions rctx StorageBackend.memory
        (store ++ [memRecord tM (fill_timestamp tV sub)]) 1000 := by
    have h := mem_memory_slice_append store (memRecord tM (fill_timestamp tV sub))
      (by omega : (1 : Nat) ≤ 1000)
    simpa [list_submissions] using h
  refine ⟨?_, hins, rfl, hmem⟩
  simp [submit_contest_entry, coerce_payload, hval, hins, insert_submission_memory]

/-- Claim C1 witness: the theorem at a concrete valid payload with the
supabase backend selected and its insert returning no data. -/
theorem insert_failure_falls_back_to_memory_witness :
    (StorageBackend.supabase ≠ StorageBackend.memory
      ∧ mkContestSubmission validPayload = Except.ok validSub
      ∧ nonMemoryInsert ctxSupabaseFail StorageBackend.supabase tClock1
          (fill_timestamp tClock0 validSub)
          = Except.error ("No data returned from Supabase insert"))
    ∧ (submit_contest_entry ctxSupabaseFail StorageBackend.supabase tClock0 tClock1 tClock2
          (ParsedJson.obj validPayload) []
        = (SubmitResponse.success (submitMessage StorageBackend.supabase) (mkSubmissionId tClock2),
           [] ++ [memRecord tClock2 (fill_timestamp tClock0 validSub)])
      ∧ insert_submission ctxSupabaseFail StorageBackend.supabase tClock1 tClock2
          (fill_timestamp tClock0 validSub) []
        = insert_submission_memory tClock2 (fill_timestamp tClock0 validSub) []
      ∧ (SubmitResponse.success (submitMessage StorageBackend.supabase) (mkSubmissionId tClock2)).status = 200
      ∧ memRecord tClock2 (fill_timestamp tClock0 validSub)
          ∈ list_submissions rctx0 StorageBackend.memory
              ([] ++ [memRecord tClock2 (fill_timestamp tClock0 validSub)]) 1000) :=
  ⟨⟨by decide, by decide, by decide⟩,
    insert_failure_falls_back_to_memory ctxSupabaseFail rctx0 StorageBackend.supabase
      tClock0 tClock1 tClock2 validPayload validSub []
      ("No data returned from Supabase insert") (by decide) (by decide) (by decide)⟩

/-- Claim C2 (counterexample): with supabase selected and its insert
failing, the record is written by the in-memory adapter (its
`storage_method` is `memory`), yet the echoed success message names
`supabase`, not `memory` — the response reports the selected backend, not
the adapter that actually wrote. -/
theorem fallback_response_reports_selected_backend :
    (submit_contest_entry ctxSupabaseFail StorageBackend.supabase tClock0 tClock1 tClock2
        (ParsedJson.obj validPayload) []).2
      = [memRecord tClock2 (fill_timestamp tClock0 validSub)]
    ∧ (memRecord tClock2 (fill_timestamp tClock0 validSub)).storage_method = "memory"
    ∧ (submit_contest_entry ctxSupabaseFail StorageBackend.supabase tClock0 tClock1 tClock2
        (ParsedJson.obj validPayload) []).1
      = SubmitResponse.success ("Submission recorded successfully using supabase!")
          (mkSubmissionId tClock2)
    ∧ ("Submission recorded successfully using supabase!" : String)
      ≠ "Submission recorded successfully using memory!" := by
  refine ⟨by decide, by decide, by decide, by decide⟩

/-- Claim C2 (amended): the storage name echoed in the success message is
always the backend held in process state (the startup selection), even
when this particular write silently degraded to the in-memory adapter; it
names the actual writer only when no fallback occurred. -/
theorem submit_message_names_selected_backend
    (ctx : StorageCtx) (cs : StorageBackend) (tV tB tM : PyDateTime)
    (p : Payload) (sub : ContestSubmission) (store : List Submission)
    (hval : mkContestSubmission p = Except.ok sub) :
    ∃ id, (submit_contest_entry ctx cs tV tB tM (ParsedJson.obj p) store).1
      = SubmitResponse.success (submitMessage cs) id := by
  exact ⟨(insert_submission ctx cs tB tM (fill_timestamp tV sub) store).1,
    by simp [submit_contest_entry, coerce_payload, hval]⟩

/-- Claim C2 witness: the amended theorem at the concrete fallback run. -/
theorem submit_message_names_selected_backend_witness :
    mkContestSubmission validPayload = Except.ok validSub
    ∧ ∃ id, (submit_contest_entry ctxSupabaseFail StorageBackend.supabase tClock0 tClock1 tClock2
        (ParsedJson.obj validPayload) []).1
      = SubmitResponse.success (submitMessage StorageBackend.supabase) id :=
  ⟨by decide,
    submit_message_names_selected_backend ctxSupabaseFail StorageBackend.supabase
      tClock0 tClock1 tClock2 validPayload validSub [] (by decide)⟩

/-- A stored record with the older timestamp. -/
def subOld : Submission :=
  { id := "sub_20240101_000000000000", name := "Old User", email := "old@example.com",
    answer := "first answer", timestamp := "2024-01-01T00:00:00", storage_method := "memory" }

/-- A stored record with the newer timestamp. -/
def subNew : Submission :=
  { id := "sub_20240102_000000000000", name := "New User", email := "new@example.com",
    answer := "second answer", timestamp := "2024-01-02T00:00:00", storage_method := "memory" }

/-- Claim C4 (counterexample): with the memory backend active,
`GET /submissions/backup` returns the store slice in insertion order:
its first element carries the strictly older timestamp, so the result is
not ordered timestamp-descending (most recent first). -/
theorem backup_memory_not_descending :
    (get_backup_submissions rctx0 StorageBackend.memory [subOld, subNew]).submissions
      = [subOld, subNew]
    ∧ subOld.timestamp < subNew.timestamp := by
  refine ⟨by decide, ?_⟩
  rw [String.lt_iff_toList_lt]
  decide

/-- Claim C4 (amended): on the memory path and on every soft-failure path
(the memory or sheets backend selected, or supabase/postgres selected with
the client object missing or the external read raising),
`GET /submissions/backup` returns the `[-limit:]` slice at the default
limit 1000 — at most 1000 records, the most recent ones as a suffix of
the store, in insertion order (oldest kept record first), not
timestamp-descending; the successful supabase/postgres reads return the
external query result, whose ordering and limiting are delegated to the
external store. -/
theorem backup_memory_suffix_limit (rctx : ReadCtx) (store : List Submission)
    (cs : StorageBackend)
    (hsoft : cs = StorageBackend.memory ∨ cs = StorageBackend.sheets
      ∨ (cs = StorageBackend.supabase
          ∧ (rctx.supabaseClient = false ∨ ∃ msg, rctx.supabaseRows = Except.error msg))
      ∨ (cs = StorageBackend.postgres
          ∧ (rctx.postgresPool = false ∨ ∃ msg, rctx.postgresRows = Except.error msg))) :
    (get_backup_submissions rctx cs store).submissions = memory_slice store 1000
    ∧ (get_backup_submissions rctx cs store).submissions.length ≤ 1000
    ∧ memory_slice store 1000 <:+ store := by
  have h0 : ¬ (1000 : Nat) = 0 := by omega
  have h1 : (memory_slice store 1000).length ≤ 1000 := by
    unfold memory_slice
    rw [if_neg h0, List.length_drop]
    omega
  have h2 : (get_backup_submissions rctx cs store).submissions = memory_slice store 1000 := by
    rcases hsoft with rfl | rfl | ⟨rfl, hfail⟩ | ⟨rfl, hfail⟩
    · simp [get_backup_submissions, list_submissions]
    · simp [get_backup_submissions, list_submissions]
    · rcases hfail with hclient | ⟨msg, herr⟩
      · simp [get_backup_submissions, list_submissions, hclient]
      · cases hc : rctx.supabaseClient <;>
          simp [get_backup_submissions, list_submissions, hc, herr]
    · rcases hfail with hpool | ⟨msg, herr⟩
      · simp [get_backup_submissions, list_submissions, hpool]
      · cases hc : rctx.postgresPool <;>
          simp [get_backup_submissions, list_submissions, hc, herr]
  refine ⟨h2, by rw [h2]; exact h1, ?_⟩
  unfold memory_slice
  rw [if_neg h0]
  exact List.drop_suffix _ _

/-- Claim C4 witness: the amended theorem on a concrete soft-failure path
— supabase selected while its client was never initialized — over the
concrete two-record store. -/
theorem backup_memory_suffix_limit_witness :
    (StorageBackend.supabase = StorageBackend.memory
      ∨ StorageBackend.supabase = StorageBackend.sheets
      ∨ (StorageBackend.supabase = StorageBackend.supabase
          ∧ (rctx0.supabaseClient = false ∨ ∃ msg, rctx0.supabaseRows = Except.error msg))
      ∨ (StorageBackend.supabase = StorageBackend.postgres
          ∧ (rctx0.postgresPool = false ∨ ∃ msg, rctx0.postgresRows = Except.error msg)))
    ∧ ((get_backup_submissions rctx0 StorageBackend.supabase [subOld, subNew]).submissions
        = memory_slice [subOld, subNew] 1000
      ∧ (get_backup_submissions rctx0 StorageBackend.supabase [subOld, subNew]).submissions.length
        ≤ 1000
      ∧ memory_slice [subOld, subNew] 1000 <:+ [subOld, subNew]) :=
  ⟨Or.inr (Or.inr (Or.inl ⟨rfl, Or.inl rfl⟩)),
    backup_memory_suffix_limit rctx0 [subOld, subNew] StorageBackend.supabase
      (Or.inr (Or.inr (Or.inl ⟨rfl, Or.inl rfl⟩)))⟩

/-- Every id a non-memory adapter returns on success is the one it
generated from its own clock read. -/
theorem nonMemoryInsert_ok (ctx : StorageCtx) (b : StorageBackend) (tB : PyDateTime)
    (d : ContestSubmission) (id : String)
    (h : nonMemoryInsert ctx b tB d = Except.ok id) : id = mkSubmissionId tB := by
  cases b with
  | memory =>
    simp only [nonMemoryInsert] at h
    injection h with h2
    exact h2.symm
  | supabase =>
    simp only [nonMemoryInsert, insert_submission_supabase] at h
    split at h
    · cases h
    · split at h
      · cases h
      · injection h with h2
        exact h2.symm
  | sheets =>
    simp only [nonMemoryInsert, insert_submission_sheets] at h
    split at h
    · cases h
    · split at h
      · cases h
      · injection h with h2
        exact h2.symm
  | postgres =>
    simp only [nonMemoryInsert, insert_submission_postgres] at h
    split at h
    · cases h
    · split at h
      · cases h
      · injection h with h2
        exact h2.symm

/-- The id `insert_submission` returns is generated at one of the two
clock reads: the backend adapter's on success, the memory adapter's on
fallback or with the memory backend. -/
theorem insert_submission_fst_shape (ctx : StorageCtx) (cs : StorageBackend)
    (tB tM : PyDateTime) (d : ContestSubmission) (store : List Submission) :
    (insert_submission ctx cs tB tM d store).1 = mkSubmissionId tB
    ∨ (insert_submission ctx cs tB tM d store).1 = mkSubmissionId tM := by
  cases cs
  case memory => exact Or.inr rfl
  case supabase =>
    cases h : nonMemoryInsert ctx StorageBackend.supabase tB d with
    | ok id =>
      exact Or.inl (by simp [insert_submission, h,
        nonMemoryInsert_ok ctx StorageBackend.supabase tB d id h])
    | error e => exact Or.inr (by simp [insert_submission, h, insert_submission_memory])
  case sheets =>
    cases h : nonMemoryInsert ctx StorageBackend.sheets tB d with
    | ok id =>
      exact Or.inl (by simp [insert_submission, h,
        nonMemoryInsert_ok ctx StorageBackend.sheets tB d id h])
    | error e => exact Or.inr (by simp [insert_submission, h, insert_submission_memory])
  case postgres =>
    cases h : nonMemoryInsert ctx StorageBackend.postgres tB d with
    | ok id =>
      exact Or.inl (by simp [insert_submission, h,
        nonMemoryInsert_ok ctx StorageBackend.postgres tB d id h])
    | error e => exact Or.inr (by simp [insert_submission, h, insert_submission_memory])

/-- Claim C6: for every payload whose name strips to at least 2
characters, whose email contains `@`, and whose answer strips to at least
5 characters, `POST /submit` answers HTTP 200 success with a non-empty
`submission_id` of the generated shape `sub_` + 8 `yyyyMMdd` digits + `_`
+ 6 `HHmmss` digits + 6 microsecond digits — the spec's
`sub_<yyyyMMdd_HHmmssffffff>` pattern, whose 14 timestamp digits
(`yyyyMMdd` and `HHmmss`) are followed by the microsecond digits. -/
theorem submit_valid_success_id_pattern
    (ctx : StorageCtx) (cs : StorageBackend) (tV tB tM : PyDateTime)
    (p : Payload) (n e a : String) (store : List Submission)
    (hn : p.name = some n) (he : p.email = some e) (ha : p.answer = some a)
    (h1 : 2 ≤ pyLen (pyStrip n)) (h2 : pyContains e '@' = true)
    (h3 : 5 ≤ pyLen (pyStrip a)) :
    ∃ id store2,
      submit_contest_entry ctx cs tV tB tM (ParsedJson.obj p) store
        = (SubmitResponse.success (submitMessage cs) id, store2)
      ∧ (SubmitResponse.success (submitMessage cs) id).status = 200
      ∧ id ≠ ""
      ∧ ∃ datePart timePart microPart,
          id = "sub_" ++ datePart ++ "_" ++ timePart ++ microPart
          ∧ pyLen datePart = 8 ∧ pyLen timePart = 6 ∧ pyLen microPart = 6
          ∧ pyLen datePart + pyLen timePart = 14
          ∧ allDigits datePart = true ∧ allDigits timePart = true
          ∧ allDigits microPart = true := by
  obtain ⟨sub0, hval⟩ : ∃ s, mkContestSubmission p = Except.ok s :=
    ⟨_, mkContestSubmission_eq_ok p n e a hn he ha h1 h2 h3⟩
  refine ⟨(insert_submission ctx cs tB tM (fill_timestamp tV sub0) store).1,
    (insert_submission ctx cs tB tM (fill_timestamp tV sub0) store).2,
    by simp [submit_contest_entry, coerce_payload, hval], rfl, ?_, ?_⟩
  · rcases insert_submission_fst_shape ctx cs tB tM (fill_timestamp tV sub0) store
      with hid | hid <;>
    · rw [hid]
      exact mkSubmissionId_ne_empty _
  · rcases insert_submission_fst_shape ctx cs tB tM (fill_timestamp tV sub0) store
      with hid | hid <;>
    · rw [hid]
      refine ⟨dateDigits _, timeDigits _, microDigits _, mkSubmissionId_shape _,
        (dateDigits_spec _).1, (timeDigits_spec _).1, (microDigits_spec _).1, ?_,
        (dateDigits_spec _).2, (timeDigits_spec _).2, (microDigits_spec _).2⟩
      rw [(dateDigits_spec _).1, (timeDigits_spec _).1]

/-- Claim C6 witness: the theorem at a concrete valid payload. -/
theorem submit_valid_success_id_pattern_witness :
    (validPayload.name = some "Al" ∧ validPayload.email = some "a@b.com"
      ∧ validPayload.answer = some "hello world"
      ∧ 2 ≤ pyLen (pyStrip "Al") ∧ pyContains "a@b.com" '@' = true
      ∧ 5 ≤ pyLen (pyStrip "hello world"))
    ∧ (∃ id store2,
        submit_contest_entry ctxSupabaseFail StorageBackend.supabase tClock0 tClock1 tClock2
            (ParsedJson.obj validPayload) []
          = (SubmitResponse.success (submitMessage StorageBackend.supabase) id, store2)
        ∧ (SubmitResponse.success (submitMessage StorageBackend.supabase) id).status = 200
        ∧ id ≠ ""
        ∧ ∃ datePart timePart microPart,
            id = "sub_" ++ datePart ++ "_" ++ timePart ++ microPart
            ∧ pyLen datePart = 8 ∧ pyLen timePart = 6 ∧ pyLen microPart = 6
            ∧ pyLen datePart + pyLen timePart = 14
            ∧ allDigits datePart = true ∧ allDigits timePart = true
            ∧ allDigits microPart = true) :=
  ⟨⟨rfl, rfl, rfl, by decide, by decide, by decide⟩,
    submit_valid_success_id_pattern ctxSupabaseFail StorageBackend.supabase
      tClock0 tClock1 tClock2 validPayload "Al" "a@b.com" "hello world" []
      rfl rfl rfl (by decide) (by decide) (by decide)⟩

/-- A payload whose three present fields all fail their rules. -/
def badPayload : Payload :=
  { name := some "A", email := some "bad", answer := some "hi", timestamp := none }

/-- A payload with present fields validates to the error list holding one
entry per failing field, in declaration order. -/
theorem mkContestSubmission_error (p : Payload) (n e a : String)
    (hn : p.name = some n) (he : p.email = some e) (ha : p.answer = some a)
    (hbad : (n = "" ∨ pyLen (pyStrip n) < 2) ∨ (e = "" ∨ pyContains e '@' = false)
        ∨ (a = "" ∨ pyLen (pyStrip a) < 5)) :
    mkContestSubmission p = Except.error
      ((if n = "" ∨ pyLen (pyStrip n) < 2
          then [{ loc := "name", msg := "Name must be at least 2 characters long",
                  etype := "value_error" }] else [])
        ++ (if e = "" ∨ pyContains e '@' = false
          then [{ loc := "email", msg := "Valid email address required",
                  etype := "value_error" }] else [])
        ++ (if a = "" ∨ pyLen (pyStrip a) < 5
          then [{ loc := "answer", msg := "Answer must be at least 5 characters long",
                  etype := "value_error" }] else [])) := by
  have e1 : fieldResult ("name") p.name validate_name
      = (if n = "" ∨ pyLen (pyStrip n) < 2
          then Except.error { loc := "name", msg := "Name must be at least 2 characters long",
                              etype := "value_error" }
          else Except.ok (pyStrip n)) := by
    by_cases hc : (n = "" ∨ pyLen (pyStrip n) < 2) <;>
      simp [fieldResult, hn, validate_name, hc]
  have e2 : fieldResult ("email") p.email validate_email
      = (if e = "" ∨ pyContains e '@' = false
          then Except.error { loc := "email", msg := "Valid email address required",
                              etype := "value_error" }
          else Except.ok (pyLower (pyStrip e))) := by
    by_cases hc : (e = "" ∨ pyContains e '@' = false) <;>
      simp [fieldResult, he, validate_email, hc]
  have e3 : fieldResult ("answer") p.answer validate_answer
      = (if a = "" ∨ pyLen (pyStrip a) < 5
          then Except.error { loc := "answer", msg := "Answer must be at least 5 characters long",
                              etype := "value_error" }
          else Except.ok (pyStrip a)) := by
    by_cases hc : (a = "" ∨ pyLen (pyStrip a) < 5) <;>
      simp [fieldResult, ha, validate_answer, hc]
  unfold mkContestSubmission
  rw [e1, e2, e3]
  by_cases c1 : (n = "" ∨ pyLen (pyStrip n) < 2) <;>
  by_cases c2 : (e = "" ∨ pyContains e '@' = false) <;>
  by_cases c3 : (a = "" ∨ pyLen (pyStrip a) < 5) <;>
    simp [c1, c2, c3, errSide]
  rcases hbad with h | h | h
  · exact c1 h
  · exact c2 h
  · exact c3 h

/-- Claim C7: whenever one or more of the three field rules fail on a
payload with all fields present, `POST /submit` answers HTTP 422 whose
error list names exactly the failing fields, in declaration order, and the
store is untouched. -/
theorem submit_invalid_fields_422
    (ctx : StorageCtx) (cs : StorageBackend) (tV tB tM : PyDateTime)
    (store : List Submission) (p : Payload) (n e a : String)
    (hn : p.name = some n) (he : p.email = some e) (ha : p.answer = some a)
    (hbad : (n = "" ∨ pyLen (pyStrip n) < 2) ∨ (e = "" ∨ pyContains e '@' = false)
        ∨ (a = "" ∨ pyLen (pyStrip a) < 5)) :
    ∃ errs : List FieldError,
      submit_contest_entry ctx cs tV tB tM (ParsedJson.obj p) store
        = (SubmitResponse.validation_error errs, store)
      ∧ errs.map FieldError.loc =
          ((if n = "" ∨ pyLen (pyStrip n) < 2 then ["name"] else [])
            ++ (if e = "" ∨ pyContains e '@' = false then ["email"] else [])
            ++ (if a = "" ∨ pyLen (pyStrip a) < 5 then ["answer"] else []))
      ∧ errs ≠ []
      ∧ (SubmitResponse.validation_error errs).status = 422 := by
  have herr := mkContestSubmission_error p n e a hn he ha hbad
  refine ⟨(if n = "" ∨ pyLen (pyStrip n) < 2
        then [{ loc := "name", msg := "Name must be at least 2 characters long",
                etype := "value_error" }] else [])
      ++ (if e = "" ∨ pyContains e '@' = false
        then [{ loc := "email", msg := "Valid email address required",
                etype := "value_error" }] else [])
      ++ (if a = "" ∨ pyLen (pyStrip a) < 5
        then [{ loc := "answer", msg := "Answer must be at least 5 characters long",
                etype := "value_error" }] else []), ?_, ?_, ?_, rfl⟩
  · simp [submit_contest_entry, coerce_payload, herr]
  · by_cases c1 : (n = "" ∨ pyLen (pyStrip n) < 2) <;>
    by_cases c2 : (e = "" ∨ pyContains e '@' = false) <;>
    by_cases c3 : (a = "" ∨ pyLen (pyStrip a) < 5) <;>
      simp [c1, c2, c3]
  · rcases hbad with h | h | h <;> simp [h, List.append_eq_nil]

/-- Claim C7 witness: the scenario `{"name": "A", "email": "bad",
"answer": "hi"}`, where all three rules fail. -/
theorem submit_invalid_fields_422_witness :
    (badPayload.name = some "A" ∧ badPayload.email = some "bad"
      ∧ badPayload.answer = some "hi"
      ∧ (("A" = "" ∨ pyLen (pyStrip "A") < 2) ∨ ("bad" = "" ∨ pyContains "bad" '@' = false)
          ∨ ("hi" = "" ∨ pyLen (pyStrip "hi") < 5)))
    ∧ (∃ errs : List FieldError,
        submit_contest_entry ctxSupabaseFail StorageBackend.supabase tClock0 tClock1 tClock2
            (ParsedJson.obj badPayload) []
          = (SubmitResponse.validation_error errs, [])
        ∧ errs.map FieldError.loc =
            ((if "A" = "" ∨ pyLen (pyStrip "A") < 2 then ["name"] else [])
              ++ (if "bad" = "" ∨ pyContains "bad" '@' = false then ["email"] else [])
              ++ (if "hi" = "" ∨ pyLen (pyStrip "hi") < 5 then ["answer"] else []))
        ∧ errs ≠ []
        ∧ (SubmitResponse.validation_error errs).status = 422) :=
  ⟨⟨rfl, rfl, rfl, by decide⟩,
    submit_invalid_fields_422 ctxSupabaseFail StorageBackend.supabase
      tClock0 tClock1 tClock2 [] badPayload "A" "bad" "hi" rfl rfl rfl (by decide)⟩

/-- Claim C10: every request body parsing to a non-mapping JSON value is
replaced by the empty payload, and `POST /submit` answers HTTP 422 with
exactly one required-field error for each of `name`, `email` and `answer`
— never HTTP 500. -/
theorem submit_non_mapping_body_422
    (ctx : StorageCtx) (cs : StorageBackend) (tV tB tM : PyDateTime)
    (store : List Submission) (body : ParsedJson) (h : body.isObj = false) :
    coerce_payload body = emptyPayload
    ∧ submit_contest_entry ctx cs tV tB tM body store
      = (SubmitResponse.validation_error
          [{ loc := "name", msg := "field required", etype := "value_error.missing" },
           { loc := "email", msg := "field required", etype := "value_error.missing" },
           { loc := "answer", msg := "field required", etype := "value_error.missing" }],
         store)
    ∧ (submit_contest_entry ctx cs tV tB tM body store).1.status = 422
    ∧ (submit_contest_entry ctx cs tV tB tM body store).1.status ≠ 500 := by
  cases body with
  | obj p => simp [ParsedJson.isObj] at h
  | arr =>
    refine ⟨rfl, rfl, rfl, ?_⟩
    rw [show (submit_contest_entry ctx cs tV tB tM ParsedJson.arr store).1.status = 422 from rfl]
    decide
  | str s =>
    refine ⟨rfl, rfl, rfl, ?_⟩
    rw [show (submit_contest_entry ctx cs tV tB tM (ParsedJson.str s) store).1.status = 422 from rfl]
    decide
  | num k =>
    refine ⟨rfl, rfl, rfl, ?_⟩
    rw [show (submit_contest_entry ctx cs tV tB tM (ParsedJson.num k) store).1.status = 422 from rfl]
    decide
  | null =>
    refine ⟨rfl, rfl, rfl, ?_⟩
    rw [show (submit_contest_entry ctx cs tV tB tM ParsedJson.null store).1.status = 422 from rfl]
    decide

/-- Claim C10 witness: the theorem at a concrete JSON-array body. -/
theorem submit_non_mapping_body_422_witness :
    ParsedJson.arr.isObj = false
    ∧ (coerce_payload ParsedJson.arr = emptyPayload
      ∧ submit_contest_entry ctxSupabaseFail StorageBackend.supabase tClock0 tClock1 tClock2
          ParsedJson.arr []
        = (SubmitResponse.validation_error
            [{ loc := "name", msg := "field required", etype := "value_error.missing" },
             { loc := "email", msg := "field required", etype := "value_error.missing" },
             { loc := "answer", msg := "field required", etype := "value_error.missing" }],
           [])
      ∧ (submit_contest_entry ctxSupabaseFail StorageBackend.supabase tClock0 tClock1 tClock2
          ParsedJson.arr []).1.status = 422
      ∧ (submit_contest_entry ctxSupabaseFail StorageBackend.supabase tClock0 tClock1 tClock2
          ParsedJson.arr []).1.status ≠ 500) :=
  ⟨rfl, submit_non_mapping_body_422 ctxSupabaseFail StorageBackend.supabase
      tClock0 tClock1 tClock2 [] ParsedJson.arr rfl⟩

/-- Claim C5 (code evaluated at the failing input): in the sheets app
variant, with Google Sheets configured and the append succeeding,
`append_to_google_sheets` persists a row whose id was generated at its own
clock read, and `insert_submission` then returns a second, freshly
generated id to the caller: the id persisted with the record differs from
the id returned, contradicting the id-assigned-exactly-once invariant. -/
theorem sheets_insert_returns_fabricated_id :
    Sheets.insert_submission true true tClock1 tClock2 validSub []
      = (mkSubmissionId tClock2, [],
         some { id := mkSubmissionId tClock1, name := "Al", email := "a@b.com",
                answer := "hello world", timestamp := isoformat tClock1 })
    ∧ mkSubmissionId tClock1 ≠ mkSubmissionId tClock2 := by
  exact ⟨by decide, by decide⟩

end Backend
